import Mathlib

/-!
Shallow embedding of the schema entity graph and conditional-value
resolution engine of `src/core/schema.rs` (stalwart-webadmin).

Modelling conventions:
* `&'static str` is `String`.
* `AHashMap<&str, V>` is an association list `List (String × V)`;
  `insert` conses the new binding in front, `lookup` takes the first
  binding for a key, so the observable map behaviour (last insert for a
  key wins) is preserved.
* The trait object `impl SettingsValue` (one operation,
  `get(key) -> Option<&str>`) is a function `String → Option String`.
* An `Arc<Field>` (resp. `Arc<Schema>`) stored inside an `Eval` or a
  `Source::Dynamic` is represented by the referenced item's id: the code
  only ever reads `.id` from these back references, field maps always
  bind a field under its own id, and the graph is immutable once built,
  so the id determines every observable of the reference.  (This is the
  arena/key representation of the shared immutable graph.)
* A `panic!` (fatal construction or lookup error) is modelled by the
  operation returning `Option` with `none` for the panic.
-/

set_option autoImplicit false

namespace Webadmin

/-- The `SettingsValue` capability: `get(key: &str) -> Option<&str>`. -/
def Settings : Type := String → Option String

/-- `enum Condition { MatchAny, MatchNone }`. -/
inductive Condition where
  | MatchAny
  | MatchNone
  deriving DecidableEq, Repr

/-- `struct Eval { field: Arc<Field>, values: Vec<&str>, condition: Condition }`.
The `Arc<Field>` back reference is represented by the referenced field's id
(the only component the code reads from it). -/
structure Eval where
  field : String
  values : List String
  condition : Condition
  deriving DecidableEq, Repr

/-- `struct IfThen<T> { eval: Eval, value: T }`. -/
structure IfThen (T : Type) where
  eval : Eval
  value : T
  deriving Repr

/-- `struct Value<T> { if_thens: Vec<IfThen<T>>, default: Option<T> }`
(the ConditionalSet of the spec). -/
structure Value (T : Type) where
  if_thens : List (IfThen T) := []
  default : Option T := none
  deriving Repr

/-- `enum Transformer`. -/
inductive Transformer where
  | Trim
  | RemoveSpaces
  | Lowercase
  | Uppercase
  deriving DecidableEq, Repr

/-- `enum NumberType { Integer(i64), Float(f64) }`. -/
inductive NumberType where
  | Integer (i : Int)
  | Float (f : Float)
  deriving BEq, Repr

/-- `enum Validator`. -/
inductive Validator where
  | Required
  | IsEmail
  | IsCron
  | IsId
  | IsHost
  | IsDomain
  | IsPort
  | IsUrl
  | IsGlobPattern
  | IsRegexPattern
  | MinLength (n : Nat)
  | MaxLength (n : Nat)
  | MinValue (n : NumberType)
  | MaxValue (n : NumberType)
  | MinItems (n : Nat)
  | MaxItems (n : Nat)
  | IsValidExpression (vars : List String)
      (functions : List (String × Nat)) (consts : List String)
  deriving BEq, Repr

/-- `struct InputCheck { transformers: Vec<Transformer>, validators: Vec<Validator> }`. -/
structure InputCheck where
  transformers : List Transformer := []
  validators : List Validator := []
  deriving BEq, Repr

/-- `enum Source<S, F> { Static(&[(&str, &str)]), Dynamic { schema: S, field: F } }`,
with the `Arc<Schema>` / `Arc<Field>` references represented by their ids. -/
inductive Source where
  | Static (items : List (String × String))
  | Dynamic (schema : String) (field : String)
  deriving DecidableEq, Repr

/-- `enum Type<S, F>` (the field kind; `Expression` is the `#[default]`). -/
inductive Typ where
  | Input
  | Array
  | Secret
  | Text
  | Expression
  | Select (source : Source)
  | Checkbox
  | Duration
  | Size
  deriving DecidableEq, Repr

/-- `struct Field` with the `Default` values of the Rust derive
(`typ_` defaults to `Expression`). -/
structure Field where
  id : String := ""
  label_form : String := ""
  label_column : String := ""
  help : Option String := none
  checks : Value InputCheck := {}
  typ_ : Typ := Typ.Expression
  default : Value String := {}
  placeholder : Value String := {}
  display : List Eval := []
  readonly : Bool := false
  deriving Repr

/-- `enum SchemaType { Record { prefix, suffix }, Entry { prefix }, #[default] List }`. -/
inductive SchemaType where
  | Record (pre : String) (suf : String)
  | Entry (pre : String)
  | List
  deriving DecidableEq, Repr

/-- `enum Action`. -/
inductive Action where
  | Create
  | Save
  | Cancel
  | Modify
  | Delete
  | Search
  deriving DecidableEq, Repr

/-- `struct Section { title: Option<&str>, display: Vec<Eval>, fields: Vec<Arc<Field>> }`. -/
structure Section where
  title : Option String := none
  display : List Eval := []
  fields : List Field := []
  deriving Repr

/-- `struct List` (the list-view definition; named `ListView` here because
`List` is taken by Lean's list type). -/
structure ListView where
  title : String := ""
  subtitle : String := ""
  fields : List Field := []
  actions : List Action := []
  page_size : Nat := 0
  deriving Repr

/-- `struct Form { title, subtitle, sections: Vec<Section>, actions: Vec<Action> }`. -/
structure Form where
  title : String := ""
  subtitle : String := ""
  sections : List Section := []
  actions : List Action := []
  deriving Repr

/-- `struct Schema`. -/
structure Schema where
  id : String := ""
  name_singular : String := ""
  name_plural : String := ""
  fields : List (String × Field) := []
  typ : SchemaType := SchemaType.List
  list : ListView := {}
  form : Form := {}
  deriving Repr

/-- `struct Schemas { schemas: AHashMap<&str, Arc<Schema>> }` (the registry). -/
structure Schemas where
  schemas : List (String × Schema) := []
  deriving Repr

/-- `struct Builder<P, I> { parent: P, item: I }`. -/
structure Builder (P I : Type) where
  parent : P
  item : I

/-- `AHashMap::insert`: the new binding shadows any earlier one for the key. -/
def mapInsert {V : Type} (m : List (String × V)) (k : String) (v : V) :
    List (String × V) :=
  (k, v) :: m

/-- `AHashMap::get`: first binding for the key, if any. -/
def mapLookup {V : Type} (k : String) : List (String × V) → Option V
  | [] => none
  | kv :: rest => if kv.1 = k then some kv.2 else mapLookup k rest

/-- `Eval::eval`: look up the referenced field's current value and apply the
membership test (`MatchAny`: any of `values` equals it; `MatchNone`: none does). -/
def Eval.eval (e : Eval) (s : Settings) : Bool :=
  let value := s e.field
  match e.condition with
  | Condition.MatchAny => e.values.any (fun v => value == some v)
  | Condition.MatchNone => e.values.all (fun v => value != some v)

/-- The `for if_then in &self.if_thens` loop of `Value::eval`: first rule whose
`Eval` is true wins, otherwise the fallback `dflt`. -/
def Value.evalGo {T : Type} (s : Settings) (dflt : Option T) :
    List (IfThen T) → Option T
  | [] => dflt
  | it :: rest =>
    if it.eval.eval s then some it.value else Value.evalGo s dflt rest

/-- `Value::eval`: scan `if_thens` in declared order, fall back to `default`. -/
def Value.eval {T : Type} (v : Value T) (s : Settings) : Option T :=
  Value.evalGo s v.default v.if_thens

/-- `Field::value`: the current value, empty string if absent. -/
def Field.value (f : Field) (s : Settings) : String :=
  (s f.id).getD ""

/-- `Source::display`: static key lookup via `find_map`, or the referenced
field's current value for a dynamic source. -/
def Source.display (src : Source) (id : String) (s : Settings) : Option String :=
  match src with
  | Source.Static items =>
    items.findSome? (fun kv => if kv.1 = id then some kv.2 else none)
  | Source.Dynamic _ field => s field

/-- `Field::label`: for `Select` kinds resolve the label through the source,
falling back to the raw value; otherwise the raw value. -/
def Field.label (f : Field) (s : Settings) : String :=
  let value := f.value s
  match f.typ_ with
  | Typ.Select source => (source.display value s).getD value
  | _ => value

/-- `Field::display`: visible when the eval list is empty or any eval is true.
(Named with a prime because `display` is also the structure field.) -/
def Field.display' (f : Field) (s : Settings) : Bool :=
  f.display.isEmpty || f.display.any (fun e => e.eval s)

/-- `Field::placeholder` (primed: `placeholder` is also the structure field). -/
def Field.placeholder' (f : Field) (s : Settings) : Option String :=
  f.placeholder.eval s

/-- `Field::default` (primed: `default` is also the structure field). -/
def Field.default' (f : Field) (s : Settings) : Option String :=
  f.default.eval s

/-- `Field::input_check`. -/
def Field.input_check (f : Field) (s : Settings) : Option InputCheck :=
  f.checks.eval s

/-- The test `*v == Validator::Required` used by `Field::is_required`. -/
def Validator.isRequiredValidator : Validator → Bool
  | Validator.Required => true
  | _ => false

/-- `Field::is_required`: Checkbox and Select kinds are always required;
otherwise the resolved `InputCheck` must contain the `Required` validator
(`unwrap_or_default()` gives `false` when no check resolves). -/
def Field.is_required (f : Field) (s : Settings) : Bool :=
  (match f.typ_ with
    | Typ.Checkbox => true
    | Typ.Select _ => true
    | _ => false) ||
  (match f.input_check s with
    | some c => c.validators.any Validator.isRequiredValidator
    | none => false)

/-- `Field::is_multivalue`. -/
def Field.is_multivalue (f : Field) : Bool :=
  match f.typ_ with
  | Typ.Array => true
  | Typ.Expression => true
  | _ => false

/-- `Section::display` (primed: `display` is also the structure field). -/
def Section.display' (sec : Section) (s : Settings) : Bool :=
  sec.display.isEmpty || sec.display.any (fun e => e.eval s)

/-- `Schemas::get`: the registry lookup; the "Schema not found" panic is the
`none` outcome. -/
def Schemas.get (r : Schemas) (id : String) : Option Schema :=
  mapLookup id r.schemas

/-- `Schemas::builder()`. -/
def Schemas.builder : Builder Schemas Unit :=
  ⟨{}, ()⟩

/-- `Builder<Schemas, ()>::new_schema`: start a schema with the default list
actions (`Create, Search, Delete, Modify`), page size 10, and the default form
actions (`Save, Cancel`). -/
def Builder.new_schema (b : Builder Schemas Unit) (id : String) :
    Builder Schemas Schema :=
  ⟨b.parent,
   { id := id,
     list := { actions := [Action.Create, Action.Search, Action.Delete, Action.Modify],
               page_size := 10 },
     form := { actions := [Action.Save, Action.Cancel] } }⟩

/-- `Builder<Schemas, ()>::build`: the finished registry. -/
def Builder.buildRegistry (b : Builder Schemas Unit) : Schemas :=
  b.parent

/-- `Builder<Schemas, Schema>::prefix` (named `prefix_` because `prefix` is a
Lean keyword): `List → Entry{prefix}`; any other current type is the
"Schema type is not List" panic, i.e. `none`. -/
def Builder.prefix_ (b : Builder Schemas Schema) (pre : String) :
    Option (Builder Schemas Schema) :=
  match b.item.typ with
  | SchemaType.List => some { b with item := { b.item with typ := SchemaType.Entry pre } }
  | _ => none

/-- `Builder<Schemas, Schema>::suffix` (named `suffix_`, see `prefix_`):
`Entry{prefix} → Record{prefix, suffix}`; any other current type is the
"Schema type is not Record" panic, i.e. `none`. -/
def Builder.suffix_ (b : Builder Schemas Schema) (suf : String) :
    Option (Builder Schemas Schema) :=
  match b.item.typ with
  | SchemaType.Entry pre =>
    some { b with item := { b.item with typ := SchemaType.Record pre suf } }
  | _ => none

/-- `Builder<Schemas, Schema>::list_field`: push the field registered under
the id onto the list view; the "Field not found in schema" panic is `none`. -/
def Builder.list_field (b : Builder Schemas Schema) (field : String) :
    Option (Builder Schemas Schema) :=
  (mapLookup field b.item.fields).map (fun f =>
    { b with item := { b.item with
        list := { b.item.list with fields := b.item.list.fields ++ [f] } } })

/-- `Builder<Schemas, Schema>::build`: insert the finished schema into the
registry under its id. -/
def Builder.buildSchema (b : Builder Schemas Schema) : Builder Schemas Unit :=
  ⟨{ schemas := mapInsert b.parent.schemas b.item.id b.item }, ()⟩

/-- `Builder<Schemas, Schema>::new_field`: start a field; the source then
applies `.typ(Type::Input)`, which for this non-dynamic kind just stores it. -/
def Builder.start_field (b : Builder Schemas Schema) (id : String) :
    Builder (Schemas × Schema) Field :=
  ⟨(b.parent, b.item), { id := id, typ_ := Typ.Input }⟩

/-- `Builder<Schemas, Schema>::new_form_section`. -/
def Builder.new_form_section (b : Builder Schemas Schema) :
    Builder (Schemas × Schema) Section :=
  ⟨(b.parent, b.item), {}⟩

/-- The private `field` helper of `Builder<(Schemas, Schema), Field>`: look up
a field id in the schema in progress; the "Field not found in schema" panic
is `none`. -/
def Builder.fieldRef (b : Builder (Schemas × Schema) Field) (id : String) :
    Option Field :=
  mapLookup id b.parent.2.fields

/-- The private `schema` helper of `Builder<(Schemas, Schema), Field>`: look up
a schema id in the registry in progress; the "Schema not found" panic is `none`. -/
def Builder.schemaRef (b : Builder (Schemas × Schema) Field) (id : String) :
    Option Schema :=
  mapLookup id b.parent.1.schemas

/-- `Value::push_else`: set (overwrite) the fallback. -/
def Value.push_else {T : Type} (v : Value T) (value : T) : Value T :=
  { v with default := some value }

/-- `Value::push_if_matches_eq`: append a `MatchAny` rule referencing the given
field (represented by its id). -/
def Value.push_if_matches_eq {T : Type} (v : Value T) (field : String)
    (contains : List String) (then_ : T) : Value T :=
  { v with if_thens := v.if_thens ++
      [{ eval := { field := field, values := contains, condition := Condition.MatchAny },
         value := then_ }] }

/-- `InputCheck::new`. -/
def InputCheck.new (transformers : List Transformer) (validators : List Validator) :
    InputCheck :=
  ⟨transformers, validators⟩

/-- `Builder<(Schemas, Schema), Field>::label`. -/
def Builder.label (b : Builder (Schemas × Schema) Field) (label : String) :
    Builder (Schemas × Schema) Field :=
  { b with item := { b.item with label_column := label, label_form := label } }

/-- `Builder<(Schemas, Schema), Field>::help`. -/
def Builder.help (b : Builder (Schemas × Schema) Field) (help : String) :
    Builder (Schemas × Schema) Field :=
  { b with item := { b.item with help := some help } }

/-- `Builder<(Schemas, Schema), Field>::readonly`. -/
def Builder.readonly (b : Builder (Schemas × Schema) Field) :
    Builder (Schemas × Schema) Field :=
  { b with item := { b.item with readonly := true } }

/-- `Builder<(Schemas, Schema), Field>::typ`: a `Select(Dynamic)` kind must
reference an already-registered schema and an already-registered field of the
schema in progress (either panic is `none`); every other kind is stored as
given (the `From` conversion is the identity under the id representation). -/
def Builder.typ (b : Builder (Schemas × Schema) Field) (t : Typ) :
    Option (Builder (Schemas × Schema) Field) :=
  match t with
  | Typ.Select (Source.Dynamic schema field) =>
    match b.schemaRef schema, b.fieldRef field with
    | some sch, some f =>
      some { b with item := { b.item with typ_ := Typ.Select (Source.Dynamic sch.id f.id) } }
    | _, _ => none
  | t => some { b with item := { b.item with typ_ := t } }

/-- `Builder<(Schemas, Schema), Field>::input_check`. -/
def Builder.input_check (b : Builder (Schemas × Schema) Field)
    (transformers : List Transformer) (validators : List Validator) :
    Builder (Schemas × Schema) Field :=
  { b with item := { b.item with
      checks := b.item.checks.push_else (InputCheck.new transformers validators) } }

/-- `Builder<(Schemas, Schema), Field>::input_check_if_eq`: the referenced
field must already be registered (panic is `none`). -/
def Builder.input_check_if_eq (b : Builder (Schemas × Schema) Field)
    (field : String) (conditions : List String)
    (transformers : List Transformer) (validators : List Validator) :
    Option (Builder (Schemas × Schema) Field) :=
  (b.fieldRef field).map (fun f =>
    { b with item := { b.item with
        checks := b.item.checks.push_if_matches_eq f.id conditions
          (InputCheck.new transformers validators) } })

/-- `Builder<(Schemas, Schema), Field>::placeholder`. -/
def Builder.placeholder (b : Builder (Schemas × Schema) Field) (placeholder : String) :
    Builder (Schemas × Schema) Field :=
  { b with item := { b.item with placeholder := b.item.placeholder.push_else placeholder } }

/-- `Builder<(Schemas, Schema), Field>::default`: sets the fallback of both
the `default` and the `placeholder` conditional sets. -/
def Builder.default (b : Builder (Schemas × Schema) Field) (default : String) :
    Builder (Schemas × Schema) Field :=
  { b with item := { b.item with
      default := b.item.default.push_else default,
      placeholder := b.item.placeholder.push_else default } }

/-- `Builder<(Schemas, Schema), Field>::default_if_eq`: the referenced field
must already be registered (panic is `none`). -/
def Builder.default_if_eq (b : Builder (Schemas × Schema) Field)
    (field : String) (conditions : List String) (value : String) :
    Option (Builder (Schemas × Schema) Field) :=
  (b.fieldRef field).map (fun f =>
    { b with item := { b.item with
        default := b.item.default.push_if_matches_eq f.id conditions value } })

/-- `Builder<(Schemas, Schema), Field>::display_if`: append a display eval
referencing an already-registered field (panic is `none`). -/
def Builder.display_if (b : Builder (Schemas × Schema) Field)
    (field : String) (values : List String) (condition : Condition) :
    Option (Builder (Schemas × Schema) Field) :=
  (b.fieldRef field).map (fun f =>
    { b with item := { b.item with
        display := b.item.display ++
          [{ field := f.id, values := values, condition := condition }] } })

/-- `Builder<(Schemas, Schema), Field>::display_if_eq`. -/
def Builder.display_if_eq (b : Builder (Schemas × Schema) Field)
    (field : String) (values : List String) :
    Option (Builder (Schemas × Schema) Field) :=
  b.display_if field values Condition.MatchAny

/-- `Builder<(Schemas, Schema), Field>::display_if_ne`. -/
def Builder.display_if_ne (b : Builder (Schemas × Schema) Field)
    (field : String) (values : List String) :
    Option (Builder (Schemas × Schema) Field) :=
  b.display_if field values Condition.MatchNone

/-- `Builder<(Schemas, Schema), Field>::build`: insert the finished field into
the schema-in-progress under its id and pop back to the schema stage. -/
def Builder.buildField (b : Builder (Schemas × Schema) Field) :
    Builder Schemas Schema :=
  ⟨b.parent.1,
   { b.parent.2 with fields := mapInsert b.parent.2.fields b.item.id b.item }⟩

/-- `Builder<(Schemas, Schema), Field>::new_field`: insert the current field
into the schema-in-progress under its id and start a new field that inherits
`typ_`, `display` and `checks`, all other components reset to their defaults. -/
def Builder.new_field (b : Builder (Schemas × Schema) Field) (id : String) :
    Builder (Schemas × Schema) Field :=
  ⟨(b.parent.1, { b.parent.2 with fields := mapInsert b.parent.2.fields b.item.id b.item }),
   { id := id, typ_ := b.item.typ_, display := b.item.display, checks := b.item.checks }⟩

/-- `Builder<(Schemas, Schema), Section>::title`. -/
def Builder.title (b : Builder (Schemas × Schema) Section) (title : String) :
    Builder (Schemas × Schema) Section :=
  { b with item := { b.item with title := some title } }

/-- `Builder<(Schemas, Schema), Section>::field`: push the field registered
under the id onto the section; the "Field not found in schema" panic is `none`. -/
def Builder.field (b : Builder (Schemas × Schema) Section) (field : String) :
    Option (Builder (Schemas × Schema) Section) :=
  (mapLookup field b.parent.2.fields).map (fun f =>
    { b with item := { b.item with fields := b.item.fields ++ [f] } })

/-- The private section-stage `display_if`: append a display eval referencing
an already-registered field (panic is `none`). -/
def Builder.section_display_if (b : Builder (Schemas × Schema) Section)
    (field : String) (values : List String) (condition : Condition) :
    Option (Builder (Schemas × Schema) Section) :=
  (mapLookup field b.parent.2.fields).map (fun f =>
    { b with item := { b.item with
        display := b.item.display ++
          [{ field := f.id, values := values, condition := condition }] } })

/-- `Builder<(Schemas, Schema), Section>::display_if_eq`. -/
def Builder.section_display_if_eq (b : Builder (Schemas × Schema) Section)
    (field : String) (values : List String) :
    Option (Builder (Schemas × Schema) Section) :=
  b.section_display_if field values Condition.MatchAny

/-- `Builder<(Schemas, Schema), Section>::display_if_ne`. -/
def Builder.section_display_if_ne (b : Builder (Schemas × Schema) Section)
    (field : String) (values : List String) :
    Option (Builder (Schemas × Schema) Section) :=
  b.section_display_if field values Condition.MatchNone

/-- `Builder<(Schemas, Schema), Section>::build`: push the finished section
onto the form and pop back to the schema stage. -/
def Builder.buildSection (b : Builder (Schemas × Schema) Section) :
    Builder Schemas Schema :=
  ⟨b.parent.1,
   { b.parent.2 with form := { b.parent.2.form with
       sections := b.parent.2.form.sections ++ [b.item] } }⟩

/-! Helper lemmas. -/

/-- The rule scan of `Value::eval` returns the first rule (in declared order)
whose eval is true, and the fallback when `List.find?` finds none. -/
theorem Value.evalGo_eq_find {T : Type} (s : Settings) (dflt : Option T) :
    ∀ l : List (IfThen T),
      Value.evalGo s dflt l =
        match l.find? (fun it => it.eval.eval s) with
        | some it => some it.value
        | none => dflt
  | [] => rfl
  | it :: rest => by
    cases hb : it.eval.eval s with
    | true => simp [Value.evalGo, List.find?, hb]
    | false => simp [Value.evalGo, List.find?, hb, Value.evalGo_eq_find s dflt rest]

/-- `mapInsert` followed by `mapLookup` of the same key yields the inserted value. -/
theorem mapLookup_insert_self {V : Type} (m : List (String × V)) (k : String) (v : V) :
    mapLookup k (mapInsert m k v) = some v := by
  simp [mapInsert, mapLookup]

/-- A key bound by no entry of the map looks up to `none`. -/
theorem mapLookup_eq_none {V : Type} {m : List (String × V)} {k : String}
    (h : ∀ kv ∈ m, kv.1 ≠ k) : mapLookup k m = none := by
  induction m with
  | nil => rfl
  | cons kv rest ih =>
    rw [mapLookup, if_neg (h kv (List.mem_cons_self kv rest))]
    exact ih (fun kv' h' => h kv' (List.mem_cons_of_mem kv h'))

/-- The membership test of `Field::is_required` recognises exactly the
`Required` validator. -/
theorem Validator.isRequiredValidator_eq (v : Validator) :
    Validator.isRequiredValidator v = true ↔ v = Validator.Required := by
  cases v <;> simp [Validator.isRequiredValidator]

/-! Claim theorems. -/

/-- C1: `Value::eval` iterates the rules in declared order and returns the
value of the first rule whose `Eval` is true; if no rule matches it returns
the fallback; with an empty rule list the result is the fallback (or `none`
when absent), regardless of the value source. -/
theorem c1_value_eval_first_match {T : Type} (v : Value T) (s : Settings) :
    (v.eval s = match v.if_thens.find? (fun it => it.eval.eval s) with
      | some it => some it.value
      | none => v.default)
    ∧ (v.if_thens = [] → v.eval s = v.default) := by
  constructor
  · exact Value.evalGo_eq_find s v.default v.if_thens
  · intro h
    simp [Value.eval, h, Value.evalGo]

/-- C2: `Eval::eval` with `MatchAny` is true iff the referenced field's current
value is present and equal to one of `values` (an absent value never matches);
with `MatchNone` it is true iff the current value equals none of `values`, and
an absent current value vacuously satisfies `MatchNone`. -/
theorem c2_eval_matchany_matchnone (e : Eval) (s : Settings) :
    (e.condition = Condition.MatchAny →
      (e.eval s = true ↔ ∃ cur, s e.field = some cur ∧ cur ∈ e.values))
    ∧ (e.condition = Condition.MatchNone →
      (e.eval s = true ↔ ∀ v ∈ e.values, s e.field ≠ some v))
    ∧ (s e.field = none → e.condition = Condition.MatchAny → e.eval s = false)
    ∧ (s e.field = none → e.condition = Condition.MatchNone → e.eval s = true) := by
  refine ⟨?_, ?_, ?_, ?_⟩
  · intro hc
    simp only [Eval.eval, hc, List.any_eq_true, beq_iff_eq]
    constructor
    · rintro ⟨v, hv, he⟩
      exact ⟨v, he, hv⟩
    · rintro ⟨cur, hcur, hmem⟩
      exact ⟨cur, hmem, hcur⟩
  · intro hc
    simp only [Eval.eval, hc, List.all_eq_true, bne_iff_ne, ne_eq]
  · intro hnone hc
    simp [Eval.eval, hc, hnone]
  · intro hnone hc
    simp [Eval.eval, hc, hnone]

/-- C3: field and section visibility is true when the display eval list is
empty, and otherwise is the logical OR of evaluating every `Eval` in the list
against the value source. -/
theorem c3_display_or (f : Field) (sec : Section) (s : Settings) :
    (f.display = [] → f.display' s = true)
    ∧ (f.display ≠ [] → (f.display' s = true ↔ ∃ e ∈ f.display, e.eval s = true))
    ∧ (sec.display = [] → sec.display' s = true)
    ∧ (sec.display ≠ [] → (sec.display' s = true ↔ ∃ e ∈ sec.display, e.eval s = true)) := by
  refine ⟨?_, ?_, ?_, ?_⟩
  · intro h
    simp [Field.display', h]
  · intro h
    simp [Field.display', h, List.any_eq_true, List.isEmpty_iff]
  · intro h
    simp [Section.display', h]
  · intro h
    simp [Section.display', h, List.any_eq_true, List.isEmpty_iff]

/-- C4: `Field::label` resolves a Select field's label through its `Source`
(falling back to the raw current value), is the raw current value for every
non-Select kind, and a `Source` that cannot resolve a label yields `none`
(absence), never an error: a static source with no matching key and a dynamic
source whose referenced field is unset both display as `none`. -/
theorem c4_label_select (f : Field) (src : Source) (s : Settings)
    (items : List (String × String)) (sch fid : String) :
    (f.typ_ = Typ.Select src →
      f.label s = ((src.display (f.value s) s).getD (f.value s)))
    ∧ ((∀ src', f.typ_ ≠ Typ.Select src') → f.label s = f.value s)
    ∧ ((∀ kv ∈ items, kv.1 ≠ f.value s) →
      (Source.Static items).display (f.value s) s = none)
    ∧ (s fid = none → (Source.Dynamic sch fid).display (f.value s) s = none) := by
  refine ⟨?_, ?_, ?_, ?_⟩
  · intro h
    simp [Field.label, h]
  · intro h
    cases ht : f.typ_ <;> simp [Field.label, ht]
    case Select src' => exact absurd ht (h src')
  · intro h
    simp only [Source.display, List.findSome?_eq_none_iff]
    intro kv hkv
    simp [h kv hkv]
  · intro h
    simp [Source.display, h]

/-- C5: `Field::is_required` is unconditionally true for Checkbox and Select
kinds (whatever the resolved `InputCheck` is), and for every other kind it is
true iff the `InputCheck` resolved for the current value source contains the
`Required` validator. -/
theorem c5_is_required (f : Field) (s : Settings) :
    ((f.typ_ = Typ.Checkbox ∨ ∃ src, f.typ_ = Typ.Select src) →
      f.is_required s = true)
    ∧ ((f.typ_ ≠ Typ.Checkbox ∧ ∀ src, f.typ_ ≠ Typ.Select src) →
      (f.is_required s = true ↔
        ∃ c, f.input_check s = some c ∧ Validator.Required ∈ c.validators)) := by
  constructor
  · intro h
    rcases h with h | ⟨src, h⟩ <;> simp [Field.is_required, h]
  · rintro ⟨hcb, hsel⟩
    have hmatch : (match f.typ_ with
        | Typ.Checkbox => true
        | Typ.Select _ => true
        | _ => false) = false := by
      cases ht : f.typ_ <;> simp
      case Checkbox => exact absurd ht hcb
      case Select src => exact absurd ht (hsel src)
    rw [Field.is_required, hmatch, Bool.false_or]
    cases hc : f.input_check s with
    | none => simp
    | some c =>
      simp only [List.any_eq_true, Validator.isRequiredValidator_eq, Option.some.injEq]
      constructor
      · rintro ⟨v, hv, rfl⟩
        exact ⟨c, rfl, hv⟩
      · rintro ⟨c', hcc, hmem⟩
        cases hcc
        exact ⟨Validator.Required, hmem, rfl⟩

/-- C6: building a schema (inserting it via the schema-stage `build()`) and
then calling the registry's `get` with its id returns a schema whose id equals
that id exactly; `get` with any id not registered in the `Schemas` map is the
"Schema not found" panic (modelled `none`) rather than a value. -/
theorem c6_registry_get (b : Builder Schemas Schema) (r : Schemas) (id : String) :
    (∃ sch, (b.buildSchema.buildRegistry).get b.item.id = some sch ∧
      sch.id = b.item.id)
    ∧ ((∀ kv ∈ r.schemas, kv.1 ≠ id) → r.get id = none) := by
  constructor
  · exact ⟨b.item, mapLookup_insert_self b.parent.schemas b.item.id b.item, rfl⟩
  · intro h
    exact mapLookup_eq_none h

/-- C7: the schema type may only transition `List → Entry{prefix}` via the
prefix setter and `Entry{prefix} → Record{prefix, suffix}` via the suffix
setter; calling the prefix setter when the type is not `List`, or the suffix
setter when the type is not `Entry`, is a fatal construction error (`none`). -/
theorem c7_type_transitions (b : Builder Schemas Schema) (pre suf : String) :
    (b.item.typ = SchemaType.List →
      ∃ b', b.prefix_ pre = some b' ∧ b'.item.typ = SchemaType.Entry pre ∧
        ∃ b'', b'.suffix_ suf = some b'' ∧
          b''.item.typ = SchemaType.Record pre suf)
    ∧ (b.item.typ ≠ SchemaType.List → b.prefix_ pre = none)
    ∧ ((∀ p, b.item.typ ≠ SchemaType.Entry p) → b.suffix_ suf = none) := by
  refine ⟨?_, ?_, ?_⟩
  · intro h
    refine ⟨{ b with item := { b.item with typ := SchemaType.Entry pre } }, ?_, rfl,
      { b with item := { b.item with typ := SchemaType.Record pre suf } }, ?_, rfl⟩
    · simp [Builder.prefix_, h]
    · simp [Builder.suffix_]
  · intro h
    cases ht : b.item.typ with
    | List => exact absurd ht h
    | Entry p => simp [Builder.prefix_, ht]
    | Record p q => simp [Builder.prefix_, ht]
  · intro h
    cases ht : b.item.typ with
    | List => simp [Builder.suffix_, ht]
    | Entry p => exact absurd ht (h p)
    | Record p q => simp [Builder.suffix_, ht]

/-- C8: every builder operation that references a field by id is fatal
(`none`) when the id is not registered in the field map of the schema under
construction, and when the id is registered, `list_field` and the section
stage `field` push exactly the field inserted under that id. -/
theorem c8_field_reference_integrity (b : Builder Schemas Schema)
    (bs : Builder (Schemas × Schema) Section)
    (bf : Builder (Schemas × Schema) Field)
    (id : String) (f : Field) (conds vals : List String) (v : String)
    (ts : List Transformer) (vs : List Validator) :
    (mapLookup id b.item.fields = none → b.list_field id = none)
    ∧ (mapLookup id b.item.fields = some f →
      ∃ b', b.list_field id = some b' ∧
        b'.item.list.fields = b.item.list.fields ++ [f])
    ∧ (mapLookup id bs.parent.2.fields = none → bs.field id = none)
    ∧ (mapLookup id bs.parent.2.fields = some f →
      ∃ b', bs.field id = some b' ∧ b'.item.fields = bs.item.fields ++ [f])
    ∧ (mapLookup id bf.parent.2.fields = none →
      bf.input_check_if_eq id conds ts vs = none
      ∧ bf.display_if_eq id vals = none
      ∧ bf.display_if_ne id vals = none
      ∧ bf.default_if_eq id conds v = none) := by
  refine ⟨?_, ?_, ?_, ?_, ?_⟩
  · intro h
    simp [Builder.list_field, h]
  · intro h
    exact ⟨{ b with item := { b.item with
        list := { b.item.list with fields := b.item.list.fields ++ [f] } } },
      by simp [Builder.list_field, h], rfl⟩
  · intro h
    simp [Builder.field, h]
  · intro h
    exact ⟨{ bs with item := { bs.item with fields := bs.item.fields ++ [f] } },
      by simp [Builder.field, h], rfl⟩
  · intro h
    refine ⟨?_, ?_, ?_, ?_⟩ <;>
      simp [Builder.input_check_if_eq, Builder.display_if_eq, Builder.display_if_ne,
        Builder.display_if, Builder.default_if_eq, Builder.fieldRef, h]

/-- C9: the field-stage `default(v)` sets `v` as the fallback of both the
field's `default` and its `placeholder` conditional sets, overwriting a
fallback set by an earlier `placeholder(w)` call; hence for every value source
under which no placeholder rule matches, the built field's placeholder
resolution returns `v`, not absence. -/
theorem c9_default_overwrites_placeholder
    (b : Builder (Schemas × Schema) Field) (w v : String) (s : Settings) :
    ((b.placeholder w).default v).item.placeholder.default = some v
    ∧ ((b.placeholder w).default v).item.default.default = some v
    ∧ ((∀ it ∈ ((b.placeholder w).default v).item.placeholder.if_thens,
        it.eval.eval s = false) →
      Field.placeholder' (((b.placeholder w).default v).item) s = some v) := by
  refine ⟨rfl, rfl, ?_⟩
  intro hall
  have hfind : (((b.placeholder w).default v).item.placeholder.if_thens).find?
      (fun it => it.eval.eval s) = none := by
    rw [List.find?_eq_none]
    intro it hit
    simp [hall it hit]
  rw [Field.placeholder', Value.eval, Value.evalGo_eq_find, hfind]
  rfl

/-- C10: the field-stage `new_field(id)` finalizes the current field by
inserting it into the schema-in-progress's field map under its id, and begins
a new field inheriting the previous field's kind, display evals and checks,
with default, placeholder, labels, help and the readonly flag reset to their
defaults. -/
theorem c10_new_field_inherits (b : Builder (Schemas × Schema) Field)
    (id : String) :
    (b.new_field id).parent.2.fields = mapInsert b.parent.2.fields b.item.id b.item
    ∧ (b.new_field id).parent.1 = b.parent.1
    ∧ (b.new_field id).item.id = id
    ∧ (b.new_field id).item.typ_ = b.item.typ_
    ∧ (b.new_field id).item.display = b.item.display
    ∧ (b.new_field id).item.checks = b.item.checks
    ∧ (b.new_field id).item.default = ({} : Value String)
    ∧ (b.new_field id).item.placeholder = ({} : Value String)
    ∧ (b.new_field id).item.label_form = ""
    ∧ (b.new_field id).item.label_column = ""
    ∧ (b.new_field id).item.help = none
    ∧ (b.new_field id).item.readonly = false :=
  ⟨rfl, rfl, rfl, rfl, rfl, rfl, rfl, rfl, rfl, rfl, rfl, rfl⟩

/-! Concrete fixtures for the witness theorems. -/

/-- A value source with no values set. -/
def sNone : Settings := fun _ => none

/-- A value source where only `status` is set, to `"off"`. -/
def sStatusOff : Settings := fun k => if k = "status" then some "off" else none

/-- A value source where only `color` is set, to `"red"`. -/
def sColorRed : Settings := fun k => if k = "color" then some "red" else none

/-- An eval: `status` is one of `["off"]`. -/
def evalStatusOff : Eval :=
  { field := "status", values := ["off"], condition := Condition.MatchAny }

/-- An eval: `mode` equals none of `["fast"]`. -/
def evalModeNotFast : Eval :=
  { field := "mode", values := ["fast"], condition := Condition.MatchNone }

/-- A conditional set with no rules and fallback `"30s"`. -/
def vFallback : Value String := { default := some "30s" }

/-- A field displayed only when `status` is `"off"`. -/
def fieldReason : Field := { id := "reason", display := [evalStatusOff] }

/-- A Select field over a static two-entry source. -/
def fieldColor : Field :=
  { id := "color",
    typ_ := Typ.Select (Source.Static [("red", "Red"), ("blue", "Blue")]) }

/-- A Checkbox field with no checks at all. -/
def fieldCheckbox : Field := { id := "enable", typ_ := Typ.Checkbox }

/-- An Input field whose only check carries the Required validator. -/
def fieldReq : Field :=
  { id := "host", typ_ := Typ.Input,
    checks := { default := some { validators := [Validator.Required] } } }

/-- A schema builder fresh from `new_schema "tls"`. -/
def bDemo : Builder Schemas Schema := Schemas.builder.new_schema "tls"

/-- `bDemo` after building one field `x`. -/
def bWith : Builder Schemas Schema := (bDemo.start_field "x").buildField

/-- The field `x` as built inside `bWith`. -/
def fx : Field := { id := "x", typ_ := Typ.Input }

/-! Witness theorems. -/

/-- C1 witness: the empty-rule conditional set resolves to its fallback. -/
theorem c1_witness : Value.eval vFallback sNone = some "30s" :=
  (c1_value_eval_first_match vFallback sNone).2 rfl

/-- C2 witness: a present matching value satisfies `MatchAny`, and an absent
value vacuously satisfies `MatchNone`. -/
theorem c2_witness :
    Eval.eval evalStatusOff sStatusOff = true
    ∧ Eval.eval evalModeNotFast sNone = true := by
  constructor
  · exact ((c2_eval_matchany_matchnone evalStatusOff sStatusOff).1 rfl).mpr
      ⟨"off", by decide, by decide⟩
  · exact (c2_eval_matchany_matchnone evalModeNotFast sNone).2.2.2 rfl rfl

/-- C3 witness: a satisfied display eval makes the field visible, and an
empty display list makes a section visible. -/
theorem c3_witness :
    Field.display' fieldReason sStatusOff = true
    ∧ Section.display' {} sNone = true := by
  constructor
  · exact ((c3_display_or fieldReason {} sStatusOff).2.1 (by decide)).mpr
      ⟨evalStatusOff, by decide, by decide⟩
  · exact (c3_display_or fieldReason {} sNone).2.2.1 rfl

/-- C4 witness: the static source resolves `red ↦ Red` for the label, and an
empty static source displays as `none`. -/
theorem c4_witness :
    Field.label fieldColor sColorRed = "Red"
    ∧ (Source.Static []).display (Field.value fieldColor sColorRed) sColorRed = none := by
  have h := c4_label_select fieldColor
    (Source.Static [("red", "Red"), ("blue", "Blue")]) sColorRed [] "s" "f"
  constructor
  · rw [h.1 rfl]
    rfl
  · exact h.2.2.1 (by simp)

/-- C5 witness: a Checkbox field with no checks is required, and an Input
field whose resolved check carries `Required` is required. -/
theorem c5_witness :
    Field.is_required fieldCheckbox sNone = true
    ∧ Field.is_required fieldReq sNone = true := by
  constructor
  · exact (c5_is_required fieldCheckbox sNone).1 (Or.inl rfl)
  · refine ((c5_is_required fieldReq sNone).2 ⟨by decide, ?_⟩).mpr
      ⟨{ validators := [Validator.Required] }, rfl, by simp⟩
    intro src
    simp [fieldReq]

/-- C6 witness: building the `tls` schema registers it under `"tls"`, and a
lookup in an empty registry is `none`. -/
theorem c6_witness :
    (∃ sch, Schemas.get (Builder.buildRegistry (Builder.buildSchema bDemo)) "tls"
        = some sch ∧ sch.id = "tls")
    ∧ Schemas.get ⟨[]⟩ "missing" = none := by
  have h := c6_registry_get bDemo ⟨[]⟩ "missing"
  exact ⟨h.1, h.2 (by simp)⟩

/-- C7 witness: the fresh `tls` schema goes `List → Entry → Record`. -/
theorem c7_witness :
    ∃ b', Builder.prefix_ bDemo "server." = some b'
      ∧ b'.item.typ = SchemaType.Entry "server."
      ∧ ∃ b'', Builder.suffix_ b' "cert" = some b''
        ∧ b''.item.typ = SchemaType.Record "server." "cert" :=
  (c7_type_transitions bDemo "server." "cert").1 rfl

/-- C8 witness: referencing the unregistered `missing` field is `none`, and
referencing the registered `x` field pushes exactly that field. -/
theorem c8_witness :
    Builder.list_field bDemo "missing" = none
    ∧ (∃ b', Builder.list_field bWith "x" = some b'
        ∧ b'.item.list.fields = bWith.item.list.fields ++ [fx])
    ∧ Builder.display_if_eq (Builder.start_field bDemo "y") "missing" [] = none := by
  have h := c8_field_reference_integrity bDemo (Builder.new_form_section bDemo)
    (Builder.start_field bDemo "y") "missing" fx [] [] "" [] []
  have h2 := c8_field_reference_integrity bWith (Builder.new_form_section bWith)
    (Builder.start_field bWith "y") "x" fx [] [] "" [] []
  exact ⟨h.1 rfl, h2.2.1 rfl, (h.2.2.2.2 rfl).2.1⟩

/-- C9 witness: `placeholder "15s"` then `default "30s"` leaves the
placeholder resolving to `"30s"` under the empty value source. -/
theorem c9_witness :
    Field.placeholder' ((Builder.default
      (Builder.placeholder (Builder.start_field bDemo "timeout") "15s") "30s").item)
      sNone = some "30s" := by
  have h := c9_default_overwrites_placeholder
    (Builder.start_field bDemo "timeout") "15s" "30s" sNone
  exact h.2.2 (by intro it hit; exact absurd hit (List.not_mem_nil it))

end Webadmin
